import Mathlib

/-
Verification of the cidc-cli upload orchestration pipeline.

The definitions below are a shallow embedding of `cli/upload/upload.py`,
`cli/constants.py` and the polling loop of `e2e.py`:

* a manifest file is modelled as the list of its lines (without the trailing
  newline character; Python's `str.strip` removes it together with the other
  surrounding whitespace, which `String.trim` models);
* a Python `dict` built from string pairs is modelled as an association list
  built with insert-or-overwrite (`dictOfPairs`), preserving insertion order
  and first-insertion position of each key, exactly like CPython dicts;
* Python exceptions are modelled with `Except Err`; an uncaught exception is
  an `Except.error` value carrying the exception's message;
* `os.path.getsize` is modelled by a map `fs : String → Option Nat` from full
  path strings to file sizes, `none` meaning `FileNotFoundError`;
* network calls (`SmartFetch` get/post/patch) and `subprocess.check_output`
  are modelled by explicit parameters describing their outcome, and the data
  the client would send is returned as part of each function's result.
-/

namespace Cidc

/-- Python `str.split(sep)` for a one-character separator, accumulating the
current segment; splitting never yields an empty list, and a string without
the separator splits into the one-element list holding the whole string,
exactly as in Python. -/
def pySplitAux (sep : Char) : List Char → List Char → List String
  | [], current => [String.mk current.reverse]
  | c :: rest, current =>
    if c = sep then
      String.mk current.reverse :: pySplitAux sep rest []
    else
      pySplitAux sep rest (c :: current)

/-- Python `s.split(sep)` for a one-character separator (the code only splits
on `","`, `"\t"` and `"."`). -/
def pySplit (sep : Char) (s : String) : List String :=
  pySplitAux sep s.data []

/-- The ASCII whitespace characters removed by Python `str.strip()`. -/
def isPySpace (c : Char) : Bool :=
  c = ' ' ∨ c = '\t' ∨ c = '\n' ∨ c = '\r' ∨ c = '\x0b' ∨ c = '\x0c'

/-- Python `s.strip()`: remove leading and trailing whitespace. -/
def pyStrip (s : String) : String :=
  String.mk (((s.data.dropWhile isPySpace).reverse.dropWhile isPySpace).reverse)

/-- Python exceptions raised by the embedded code, with their messages. -/
inductive Err where
  | typeError : String → Err
  | indexError : String → Err
  | keyError : String → Err
  | runtimeError : String → Err
  | fileNotFound : String → Err
  deriving DecidableEq, Repr

/-- Decidable equality of fallible results, used to evaluate the embedded
functions on concrete inputs. -/
instance {ε α : Type} [DecidableEq ε] [DecidableEq α] : DecidableEq (Except ε α)
  | Except.ok a, Except.ok b =>
    if h : a = b then Decidable.isTrue (by rw [h]) else
      Decidable.isFalse (by intro hc; cases hc; exact h rfl)
  | Except.ok _, Except.error _ => Decidable.isFalse (by intro hc; cases hc)
  | Except.error _, Except.ok _ => Decidable.isFalse (by intro hc; cases hc)
  | Except.error a, Except.error b =>
    if h : a = b then Decidable.isTrue (by rw [h]) else
      Decidable.isFalse (by intro hc; cases hc; exact h rfl)

/-- A Python `dict` from strings to strings: an insertion-ordered association
list with unique keys. -/
abbrev Record := List (String × String)

/-- Lookup in a `Record`, i.e. Python `d.get(k)`. -/
def dictGet (d : Record) (k : String) : Option String :=
  (d.find? (fun p => p.1 == k)).map (fun p => p.2)

/-- The keys of a `Record` in insertion order, i.e. Python `list(d)`. -/
def dictKeys (d : Record) : List String :=
  d.map (fun p => p.1)

/-- Python `d[k]`: the value when the key is present, a `KeyError` otherwise. -/
def pyGet (d : Record) (k : String) : Except Err String :=
  match dictGet d k with
  | some v => Except.ok v
  | none => Except.error (Err.keyError k)

/-- Insert-or-overwrite, the update step of a CPython dict: an existing key
keeps its position and gets the new value, a new key is appended. -/
def dictInsert (d : Record) (k v : String) : Record :=
  if d.any (fun p => p.1 == k) then
    d.map (fun p => if p.1 == k then (k, v) else p)
  else
    d ++ [(k, v)]

/-- Python `dict(pairs)`: fold the pairs into an empty dict. -/
def dictOfPairs (l : List (String × String)) : Record :=
  l.foldl (fun d p => dictInsert d p.1 p.2) []

/-- FILE_EXTENSION_DICT from `cli/constants.py` lines 21-25. -/
def FILE_EXTENSION_DICT : Record :=
  [("fa", "FASTQ"), ("fa.gz", "FASTQ"), ("fq.gz", "FASTQ")]

/-- Embeds `guess_file_ext` (`cli/upload/upload.py` lines 185-205).

`split_name = file_name.split(".")`; the first lookup uses `split_name[-1]`
(the list returned by `str.split` is never empty, so `getLastD` never takes
its default); on a `KeyError` the code evaluates
`split_name[-2] + "." + split_name[-1]` — the last two segments, which is
what `split_name.drop (split_name.length - 2)` holds when the split has at
least two segments — and looks that up, returning `None` (here
`Except.ok none`) on a second `KeyError`.  When the split has a single
segment, `split_name[-2]` raises an uncaught `IndexError`, because only
`KeyError` is caught. -/
def guess_file_ext (file_name : String) : Except Err (Option String) :=
  let split_name := pySplit '.' file_name
  match dictGet FILE_EXTENSION_DICT (split_name.getLastD "") with
  | some file_type => Except.ok (some file_type)
  | none =>
    match split_name.drop (split_name.length - 2) with
    | [second_last, last] =>
      Except.ok (dictGet FILE_EXTENSION_DICT (second_last ++ "." ++ last))
    | _ => Except.error (Err.indexError "list index out of range")

/-- Embeds the `while as_deque:` row loop of `parse_upload_manifest`
(`cli/upload/upload.py` lines 132-144): each remaining line is stripped and
split on the detected separator, its field count is checked against the
header's, and on mismatch an `IndexError` naming `len(tumor_normal_pairs)+1`
is raised; otherwise the record
`dict((header.strip(), column) for column, header in zip(columns, headers))`
is appended. -/
def parse_manifest_rows (separator : Char) (headers : List String) :
    List String → List Record → Except Err (List Record)
  | [], tumor_normal_pairs => Except.ok tumor_normal_pairs
  | line :: rest, tumor_normal_pairs =>
    let columns := pySplit separator (pyStrip line)
    if columns.length = headers.length then
      parse_manifest_rows separator headers rest
        (tumor_normal_pairs ++
          [dictOfPairs ((columns.zip headers).map (fun p => (pyStrip p.2, p.1)))])
    else
      Except.error (Err.indexError
        ("Line " ++ toString (tumor_normal_pairs.length + 1) ++
          " has the wrong number of columns"))

/-- Embeds `parse_upload_manifest` (`cli/upload/upload.py` lines 107-145).

`collections.deque(manifest, maxlen=500)` consumes every line of the file and
retains the LAST 500 of them, which `lines.drop (lines.length - 500)` models;
`popleft()` on the retained window yields the line used as header (an
`IndexError` on an empty file).  The separator is comma if the header line
comma-splits into exactly 13 fields, else tab if it tab-splits into exactly
13 fields, else a `TypeError` is raised. -/
def parse_upload_manifest (lines : List String) : Except Err (List Record) :=
  let as_deque := lines.drop (lines.length - 500)
  match as_deque with
  | [] => Except.error (Err.indexError "pop from an empty deque")
  | first_line :: rest =>
    if (pySplit ',' first_line).length = 13 then
      parse_manifest_rows ',' (pySplit ',' first_line) rest []
    else if (pySplit '\t' first_line).length = 13 then
      parse_manifest_rows '\t' (pySplit '\t' first_line) rest []
    else
      Except.error (Err.typeError "Unable to recognize metadata format")

/-- The selected assay, the relevant part of the dict the code reads
(`selected_assay["assay_id"]`, `selected_assay["assay_name"]`). -/
structure Assay where
  assay_id : String
  assay_name : String
  deriving DecidableEq, Repr

/-- The selected trial, the relevant part of the dict the code reads
(`selected_trial["_id"]`, `["trial_name"]`, `["samples"]`). -/
structure Trial where
  id : String
  trial_name : String
  samples : List String
  deriving DecidableEq, Repr

/-- Modelled from the spec: `Selections` is a NamedTuple defined in
`utilities/cli_utilities.py`, which is not part of the sources; per the spec's
data model it carries the user's chosen trial and assay and an auth token, and
`upload.py` reads `selections.selected_assay`, `selections.selected_trial` and
`selections.eve_token` from it. -/
structure Selections where
  eve_token : String
  selected_trial : Trial
  selected_assay : Assay
  deriving DecidableEq, Repr

/-- The `fastq_properties` sub-dict built by `create_manifest_payload`
(`cli/upload/upload.py` lines 258-269). -/
structure FastqProperties where
  patient_id : String
  timepoint : String
  timepoint_unit : String
  batch_id : String
  instrument_model : String
  read_length : String
  avg_insert_size : String
  sample_id : String
  sample_type : String
  pair_label : String
  deriving DecidableEq, Repr, Inhabited

/-- One file-submission dict appended to the payload by
`create_manifest_payload` (`cli/upload/upload.py` lines 246-271). -/
structure FileEntry where
  assay : String
  experimental_strategy : String
  data_format : Option String
  file_name : String
  file_size : Option Nat
  mapping : String
  number_of_samples : Nat
  sample_ids : List String
  trial : String
  trial_name : String
  fastq_properties : FastqProperties
  deriving DecidableEq, Repr, Inhabited

/-- A job status dict `{"progress": ..., "message": ...}`; `message` is `none`
when the Python dict has no `"message"` key. -/
structure JobStatus where
  progress : String
  message : Option String
  deriving DecidableEq, Repr

/-- The ingestion payload built at the end of `upload_manifest`
(`cli/upload/upload.py` lines 323-327). -/
structure IngestionPayload where
  number_of_files : Nat
  status : JobStatus
  files : List FileEntry
  deriving DecidableEq, Repr

/-- Embeds `check_id_present` (`cli/upload/upload.py` lines 168-182). -/
def check_id_present (sample_id : String) (list_of_ids : List String) : Bool :=
  if list_of_ids.contains sample_id = false then false else true

/-- The body of the `for key in entry` loop of `create_manifest_payload`
(`cli/upload/upload.py` lines 231-271) for one key that is among the
non-static inputs: resolve the file size (a missing file yields `none`, the
caught `FileNotFoundError`), compute the pairing labels, and build the
file-submission dict.  The `entry[...]` lookups are performed in the order the
Python dict literal evaluates them, so the first missing key determines the
`KeyError` raised. -/
def create_manifest_entry (fs : String → Option Nat) (entry : Record)
    (selections : Selections) (directory : String) (key : String) :
    Except Err FileEntry :=
  match pyGet entry key with
  | Except.error e => Except.error e
  | Except.ok file_name =>
    let file_size := fs (directory ++ "/" ++ file_name)
    let tumor_normal := if key ∈ ["FASTQ_NORMAL_1", "FASTQ_NORMAL_2"] then "NORMAL" else "TUMOR"
    let pair_label := if key ∈ ["FASTQ_NORMAL_2", "FASTQ_TUMOR_2"] then "PAIR 2" else "PAIR 1"
    match guess_file_ext file_name with
    | Except.error e => Except.error e
    | Except.ok data_format =>
      match pyGet entry "#CIMAC_SAMPLE_ID", pyGet entry "CIMAC_PATIENT_ID",
            pyGet entry "TIMEPOINT", pyGet entry "TIMEPOINT_UNIT",
            pyGet entry "BATCH_ID", pyGet entry "INSTRUMENT_MODEL",
            pyGet entry "READ_LENGTH", pyGet entry "AVG_INSERT_SIZE" with
      | Except.ok sample_id, Except.ok patient_id, Except.ok timepoint,
        Except.ok timepoint_unit, Except.ok batch_id, Except.ok instrument_model,
        Except.ok read_length, Except.ok avg_insert_size =>
        Except.ok
          { assay := selections.selected_assay.assay_id
            experimental_strategy := selections.selected_assay.assay_name
            data_format := data_format
            file_name := file_name
            file_size := file_size
            mapping := key
            number_of_samples := 1
            sample_ids := [sample_id]
            trial := selections.selected_trial.id
            trial_name := selections.selected_trial.trial_name
            fastq_properties :=
              { patient_id := patient_id
                timepoint := timepoint
                timepoint_unit := timepoint_unit
                batch_id := batch_id
                instrument_model := instrument_model
                read_length := read_length
                avg_insert_size := avg_insert_size
                sample_id := sample_id
                sample_type := tumor_normal
                pair_label := pair_label } }
      | Except.error e, _, _, _, _, _, _, _ => Except.error e
      | _, Except.error e, _, _, _, _, _, _ => Except.error e
      | _, _, Except.error e, _, _, _, _, _ => Except.error e
      | _, _, _, Except.error e, _, _, _, _ => Except.error e
      | _, _, _, _, Except.error e, _, _, _ => Except.error e
      | _, _, _, _, _, Except.error e, _, _ => Except.error e
      | _, _, _, _, _, _, Except.error e, _ => Except.error e
      | _, _, _, _, _, _, _, Except.error e => Except.error e

/-- The `for key in entry` loop of `create_manifest_payload`: keys not among
the non-static inputs are skipped; each matching key appends its
file-submission dict to `payload` and the file name (`entry[key]`, which is
the built entry's `file_name` field) to `file_names`. -/
def create_manifest_payload_loop (fs : String → Option Nat) (entry : Record)
    (non_static_inputs : List String) (selections : Selections) (directory : String) :
    List String → List FileEntry → List String → Except Err (List FileEntry × List String)
  | [], payload, file_names => Except.ok (payload, file_names)
  | key :: rest, payload, file_names =>
    if key ∈ non_static_inputs then
      match create_manifest_entry fs entry selections directory key with
      | Except.error e => Except.error e
      | Except.ok fe =>
        create_manifest_payload_loop fs entry non_static_inputs selections directory
          rest (payload ++ [fe]) (file_names ++ [fe.file_name])
    else
      create_manifest_payload_loop fs entry non_static_inputs selections directory
        rest payload file_names

/-- Embeds `create_manifest_payload` (`cli/upload/upload.py` lines 208-274):
iterate the entry's keys in insertion order, starting from empty `payload` and
`file_names` accumulators. -/
def create_manifest_payload (fs : String → Option Nat) (entry : Record)
    (non_static_inputs : List String) (selections : Selections) (directory : String) :
    Except Err (List FileEntry × List String) :=
  create_manifest_payload_loop fs entry non_static_inputs selections directory
    (dictKeys entry) [] []

/-- The `for entry in tumor_normal_pairs` loop of `upload_manifest`
(`cli/upload/upload.py` lines 301-312): every record's `#CIMAC_SAMPLE_ID` is
checked (a missing key is a `KeyError`); an unrecognized id sets the
`bad_sample_id` flag; payload construction runs only while the flag is still
unset. -/
def upload_manifest_loop (fs : String → Option Nat) (non_static_inputs : List String)
    (selections : Selections) (file_dir : String) (sample_ids : List String) :
    List Record → List String → List FileEntry → Bool →
    Except Err (List String × List FileEntry × Bool)
  | [], file_names, payload, bad_sample_id => Except.ok (file_names, payload, bad_sample_id)
  | entry :: rest, file_names, payload, bad_sample_id =>
    match pyGet entry "#CIMAC_SAMPLE_ID" with
    | Except.error e => Except.error e
    | Except.ok sid =>
      let bad := if check_id_present sid sample_ids = false then true else bad_sample_id
      if bad = false then
        match create_manifest_payload fs entry non_static_inputs selections file_dir with
        | Except.error e => Except.error e
        | Except.ok (next_payload, next_file_names) =>
          upload_manifest_loop fs non_static_inputs selections file_dir sample_ids
            rest (file_names ++ next_file_names) (payload ++ next_payload) bad
      else
        upload_manifest_loop fs non_static_inputs selections file_dir sample_ids
          rest file_names payload bad

/-- Embeds `upload_manifest` (`cli/upload/upload.py` lines 277-329).  The
interactive `find_manifest_path` and the file read are modelled by passing the
manifest's lines and `dirname(file_path)` as arguments.  After the record
loop, a set `bad_sample_id` flag raises the batch-level `RuntimeError`; then
any payload entry whose `file_size` is `None` raises `FileNotFoundError`;
otherwise the ingestion payload is assembled and returned. -/
def upload_manifest (fs : String → Option Nat) (non_static_inputs : List String)
    (selections : Selections) (manifest_lines : List String) (file_dir : String) :
    Except Err (String × IngestionPayload × List String) :=
  let sample_ids := selections.selected_trial.samples
  match parse_upload_manifest manifest_lines with
  | Except.error e => Except.error e
  | Except.ok tumor_normal_pairs =>
    match upload_manifest_loop fs non_static_inputs selections file_dir sample_ids
        tumor_normal_pairs [] [] false with
    | Except.error e => Except.error e
    | Except.ok (file_names, payload, bad_sample_id) =>
      if bad_sample_id = true then
        Except.error (Err.runtimeError
          "One or more SampleIDs were not recognized as valid IDs for this trial")
      else if payload.any (fun elem => elem.file_size.isNone) then
        Except.error (Err.fileNotFound "One or more files could not be found")
      else
        Except.ok (file_dir,
          { number_of_files := payload.length
            status := { progress := "In Progress", message := none }
            files := payload },
          file_names)

/-- The fragment of `run_upload_process` (`cli/upload/upload.py` lines
352-359) that decides whether `POST /ingestion` happens: the post is issued
with the payload returned by `upload_manifest`, and only when `upload_manifest`
returned instead of raising.  The result is the payload posted, `none` when no
post is attempted. -/
def run_upload_post (r : Except Err (String × IngestionPayload × List String)) :
    Option IngestionPayload :=
  match r with
  | Except.ok (_, payload, _) => some payload
  | Except.error _ => none

/-- The `RequestInfo` NamedTuple (`cli/upload/upload.py` lines 24-35),
flattened to the pieces the code reads: `mongo_data["_id"]`,
`mongo_data["_etag"]`, the token, `headers["google_folder_path"]`, and the
uploaded-files list (only its length is inspected). -/
structure RequestInfo where
  mongo_id : String
  mongo_etag : String
  eve_token : String
  google_folder_path : String
  files_uploaded : List String
  deriving DecidableEq, Repr

/-- The body of a `PATCH /ingestion/{id}` status update. -/
structure StatusPayload where
  progress : String
  message : Option String
  end_time : Option String
  deriving DecidableEq, Repr

/-- One patch call issued through `EVE_FETCHER.patch`. -/
structure PatchCall where
  item_id : String
  etag : String
  payload : StatusPayload
  deriving DecidableEq, Repr

/-- Embeds `update_job_status` (`cli/upload/upload.py` lines 38-73): builds
the patch sent to the backend — on success `{"status": {"progress":
"Completed", "message": ""}, "end_time": now}`, on failure `{"status":
{"progress": "Aborted", "message": message}}` — addressed by the job's id and
etag.  (`datetime.datetime.now().isoformat()` is modelled by the `now`
argument; the try/except around the patch call only converts a transport
`RuntimeError` into a `False` return value, which `upload_files` ignores.) -/
def update_job_status (status : Bool) (request_info : RequestInfo)
    (message : Option String) (now : String) : PatchCall :=
  { item_id := request_info.mongo_id
    etag := request_info.mongo_etag
    payload :=
      if status then
        { progress := "Completed", message := some "", end_time := some now }
      else
        { progress := "Aborted", message := message, end_time := none } }

/-- The gsutil argument list built by `upload_files` (`cli/upload/upload.py`
lines 88-97): `-m` is inserted when more than 3 files are uploaded, then
`cp -r directory gs://{google_folder_path}/{insert_id}`. -/
def upload_gsutil_args (directory : String) (request_info : RequestInfo) : List String :=
  let gsutil_args := ["gsutil"]
  let gsutil_args :=
    if request_info.files_uploaded.length > 3 then gsutil_args ++ ["-m"] else gsutil_args
  gsutil_args ++
    ["cp", "-r", directory,
      "gs://" ++ request_info.google_folder_path ++ "/" ++ request_info.mongo_id]

/-- Embeds `upload_files` (`cli/upload/upload.py` lines 76-104).  The external
`subprocess.check_output` is modelled by `transfer`, mapping the argument list
to either success or a `CalledProcessError` message.  On success the status is
patched to Completed and the insert id is returned; on `CalledProcessError`
the status is patched to Aborted carrying the error and `None` is returned.
The result pairs the returned value with the patch calls issued. -/
def upload_files (transfer : List String → Except String Unit) (now : String)
    (directory : String) (request_info : RequestInfo) : Option String × List PatchCall :=
  match transfer (upload_gsutil_args directory request_info) with
  | Except.ok _ =>
    (some request_info.mongo_id, [update_job_status true request_info none now])
  | Except.error err =>
    (none, [update_job_status false request_info (some err) now])

/-- One backend response observed by the `e2e.py` polling loop: the HTTP
status code, `json()["status"]["progress"]` and `json()["status"]["message"]`. -/
structure PollResp where
  status_code : Nat
  progress : String
  message : String
  deriving DecidableEq, Repr

/-- Outcome of the `e2e.py` job polling loop: either the loop condition became
false (`finished`, with the final `DONE` flag, `COUNTER` value and printed
lines), or the `Aborted` branch raised `RuntimeError` (`raised`). -/
inductive PollOutcome where
  | finished (done : Bool) (counter : Nat) (log : List String)
  | raised (counter : Nat) (log : List String)
  deriving DecidableEq, Repr

/-- Embeds the `while not DONE and COUNTER < 200:` loop of `e2e.py` lines
114-134.  `poll n` is the backend's response to the `n`-th `GET` (`n` =
`COUNTER` at the time of the call).  A non-200 response prints `Error` and
falls through to the progress dispatch, exactly as the Python does (there is
no `continue`).  The loop is written on a fuel argument that starts at 200
with `COUNTER = 0`, so fuel runs out exactly when `COUNTER < 200` fails and
the guard is checked faithfully at every entry. -/
def polling_loop_aux (poll : Nat → PollResp) :
    Nat → Bool → Nat → List String → PollOutcome
  | 0, done, counter, log => PollOutcome.finished done counter log
  | fuel + 1, done, counter, log =>
    if done = false ∧ counter < 200 then
      let resp := poll counter
      let log := if resp.status_code ≠ 200 then log ++ ["Error"] else log
      if resp.progress = "In Progress" then
        polling_loop_aux poll fuel done (counter + 1)
          (log ++ ["Upload is still in PROGRESS, check back later"])
      else if resp.progress = "Completed" then
        polling_loop_aux poll fuel true (counter + 1) (log ++ ["Upload is completed."])
      else if resp.progress = "Aborted" then
        PollOutcome.raised counter (log ++ ["Upload was aborted: " ++ resp.message])
      else
        polling_loop_aux poll fuel done (counter + 1) log
    else
      PollOutcome.finished done counter log

/-- The polling loop of `e2e.py`, entered with `DONE = False`, `COUNTER = 0`. -/
def e2e_polling_loop (poll : Nat → PollResp) : PollOutcome :=
  polling_loop_aux poll 200 false 0 []

/-- The polling loop followed by the unconditional `print("Job uploaded")` of
`e2e.py` line 136, reached whenever the loop exits without raising. -/
def e2e_job_poll (poll : Nat → PollResp) : PollOutcome :=
  match e2e_polling_loop poll with
  | PollOutcome.finished done counter log =>
    PollOutcome.finished done counter (log ++ ["Job uploaded"])
  | r => r

/-- Statement helper: the record carries a `#CIMAC_SAMPLE_ID` value that
`check_id_present` accepts against `samples`. -/
def sid_recognized (samples : List String) (entry : Record) : Bool :=
  match dictGet entry "#CIMAC_SAMPLE_ID" with
  | some sid => check_id_present sid samples
  | none => false

/-- Statement helper: the record carries a `#CIMAC_SAMPLE_ID` value that
`check_id_present` rejects against `samples`. -/
def sid_unrecognized (samples : List String) (entry : Record) : Bool :=
  match dictGet entry "#CIMAC_SAMPLE_ID" with
  | some sid => ! check_id_present sid samples
  | none => false

/-- A well-formed 13-column manifest header used by concrete witnesses. -/
def wHeader : String :=
  "#CIMAC_SAMPLE_ID,CIMAC_PATIENT_ID,TIMEPOINT,TIMEPOINT_UNIT,BATCH_ID,INSTRUMENT_MODEL,READ_LENGTH,AVG_INSERT_SIZE,FASTQ_TUMOR_1,FASTQ_TUMOR_2,FASTQ_NORMAL_1,FASTQ_NORMAL_2,NOTES"

/-- A data row whose sample id is `S1`. -/
def wRowS1 : String :=
  "S1,P1,T0,DAYS,B1,M1,100,200,t1.fa,t2.fa,n1.fa,n2.fa,x"

/-- A data row whose sample id is `S2`. -/
def wRowS2 : String :=
  "S2,P1,T0,DAYS,B1,M1,100,200,t1.fa,t2.fa,n1.fa,n2.fa,x"

/-- The record that `parse_upload_manifest` builds from `wRowS1` under
`wHeader`. -/
def wRecordS1 : Record :=
  [("#CIMAC_SAMPLE_ID", "S1"), ("CIMAC_PATIENT_ID", "P1"), ("TIMEPOINT", "T0"),
   ("TIMEPOINT_UNIT", "DAYS"), ("BATCH_ID", "B1"), ("INSTRUMENT_MODEL", "M1"),
   ("READ_LENGTH", "100"), ("AVG_INSERT_SIZE", "200"), ("FASTQ_TUMOR_1", "t1.fa"),
   ("FASTQ_TUMOR_2", "t2.fa"), ("FASTQ_NORMAL_1", "n1.fa"), ("FASTQ_NORMAL_2", "n2.fa"),
   ("NOTES", "x")]

/-- The non-static input columns used by concrete witnesses. -/
def wInputs : List String :=
  ["FASTQ_TUMOR_1", "FASTQ_TUMOR_2", "FASTQ_NORMAL_1", "FASTQ_NORMAL_2"]

/-- The trial/assay selections used by concrete witnesses; trial `T1` knows
the single sample id `S1`. -/
def wSelections : Selections :=
  { eve_token := "token"
    selected_trial := { id := "T1", trial_name := "trial", samples := ["S1"] }
    selected_assay := { assay_id := "A1", assay_name := "wes" } }

/-- The record built from `wRowS2`: same as `wRecordS1` but with the
unrecognized sample id `S2`. -/
def wRecordS2 : Record :=
  [("#CIMAC_SAMPLE_ID", "S2"), ("CIMAC_PATIENT_ID", "P1"), ("TIMEPOINT", "T0"),
   ("TIMEPOINT_UNIT", "DAYS"), ("BATCH_ID", "B1"), ("INSTRUMENT_MODEL", "M1"),
   ("READ_LENGTH", "100"), ("AVG_INSERT_SIZE", "200"), ("FASTQ_TUMOR_1", "t1.fa"),
   ("FASTQ_TUMOR_2", "t2.fa"), ("FASTQ_NORMAL_1", "n1.fa"), ("FASTQ_NORMAL_2", "n2.fa"),
   ("NOTES", "x")]

/-- The payload entries `create_manifest_payload` builds from `wRecordS1` with
every file present (size 7). -/
def wPayload : List FileEntry :=
  match create_manifest_payload (fun _ => some 7) wRecordS1 wInputs wSelections "d" with
  | Except.ok pf => pf.1
  | Except.error _ => []

/-- The file names `create_manifest_payload` collects from `wRecordS1`. -/
def wNames : List String :=
  match create_manifest_payload (fun _ => some 7) wRecordS1 wInputs wSelections "d" with
  | Except.ok pf => pf.2
  | Except.error _ => []

/-! ## Helper lemmas -/

/-- For manifests of at most 500 lines, the retained deque window is the whole
file, so the parser examines the true first line. -/
theorem parse_upload_manifest_cons_of_le (first_line : String) (rest : List String)
    (h : (first_line :: rest).length ≤ 500) :
    parse_upload_manifest (first_line :: rest) =
      if (pySplit ',' first_line).length = 13 then
        parse_manifest_rows ',' (pySplit ',' first_line) rest []
      else if (pySplit '\t' first_line).length = 13 then
        parse_manifest_rows '\t' (pySplit '\t' first_line) rest []
      else
        Except.error (Err.typeError "Unable to recognize metadata format") := by
  have hd : (first_line :: rest).drop ((first_line :: rest).length - 500) =
      first_line :: rest := by
    rw [Nat.sub_eq_zero_of_le h, List.drop_zero]
  unfold parse_upload_manifest
  rw [hd]

/-- The row loop never raises the delimiter-detection `TypeError`: its only
error is the column-count `IndexError`. -/
theorem parse_manifest_rows_ne_typeError (separator : Char) (headers : List String) :
    ∀ (ls : List String) (acc : List Record) (m : String),
      parse_manifest_rows separator headers ls acc ≠ Except.error (Err.typeError m)
  | [], acc, m => by simp [parse_manifest_rows]
  | line :: rest, acc, m => by
    simp only [parse_manifest_rows]
    split
    · exact parse_manifest_rows_ne_typeError separator headers rest _ m
    · simp

/-- If the first `j` remaining lines split into as many fields as the header
and the next one does not, the row loop raises the `IndexError` naming
position `acc.length + j + 1`. -/
theorem parse_manifest_rows_first_bad_line (separator : Char) (headers : List String) :
    ∀ (ls : List String) (acc : List Record) (j : Nat), j < ls.length →
    (ls.take j).all
      (fun line => (pySplit separator (pyStrip line)).length == headers.length) = true →
    (pySplit separator (pyStrip (ls.getD j ""))).length ≠ headers.length →
    parse_manifest_rows separator headers ls acc =
      Except.error (Err.indexError
        ("Line " ++ toString (acc.length + j + 1) ++ " has the wrong number of columns"))
  | [], _, j, hj, _, _ => by simp at hj
  | line :: rest, acc, 0, hj, hgood, hbad => by
    simp only [List.getD_cons_zero] at hbad
    simp only [parse_manifest_rows, if_neg hbad, Nat.add_zero]
  | line :: rest, acc, j + 1, hj, hgood, hbad => by
    simp only [List.take_succ_cons, List.all_cons, Bool.and_eq_true, beq_iff_eq] at hgood
    simp only [List.getD_cons_succ] at hbad
    simp only [parse_manifest_rows, if_pos hgood.1]
    rw [parse_manifest_rows_first_bad_line separator headers rest _ j
      (by simpa using Nat.lt_of_succ_lt_succ hj) hgood.2 hbad]
    have : acc.length + 1 + j + 1 = acc.length + (j + 1) + 1 := by omega
    simp [this]

/-- A batch of recognized records yields no unrecognized-sample hit. -/
theorem any_sid_unrecognized_eq_false (samples : List String) (records : List Record)
    (h : records.all (sid_recognized samples) = true) :
    records.any (sid_unrecognized samples) = false := by
  rw [List.all_eq_true] at h
  rw [List.any_eq_false]
  intro r hr
  have hrec := h r hr
  unfold sid_recognized at hrec
  unfold sid_unrecognized
  cases hd : dictGet r "#CIMAC_SAMPLE_ID" with
  | none => rw [hd] at hrec; simp at hrec
  | some sid =>
    rw [hd] at hrec
    simp at hrec
    simp [hrec]

/-! ## Claim C5 -/

set_option maxRecDepth 100000 in
/-- C5 counterexample: a manifest whose FIRST line splits into exactly 13
comma-separated fields, on which `parse_upload_manifest` nevertheless raises
the format error — the file has 501 lines, so the deque window drops the first
line and delimiter detection runs on the second line instead. -/
theorem parse_upload_manifest_first_line_ignored :
    (pySplit ',' "a,,,,,,,,,,,,").length = 13
    ∧ parse_upload_manifest ("a,,,,,,,,,,,," :: List.replicate 500 "x") =
        Except.error (Err.typeError "Unable to recognize metadata format") := by
  exact ⟨by decide, by decide⟩

/-- C5 (amended): for manifests of at most 500 lines, the parser selects the
comma delimiter exactly when the first line comma-splits into 13 fields, else
the tab delimiter when it tab-splits into 13 fields, and raises the format
`TypeError` exactly when neither split yields 13 fields. -/
theorem parse_upload_manifest_delimiter_detection (lines : List String)
    (first_line : String) (rest : List String)
    (hcons : lines = first_line :: rest) (hlen : lines.length ≤ 500) :
    ((pySplit ',' first_line).length = 13 →
      parse_upload_manifest lines = parse_manifest_rows ',' (pySplit ',' first_line) rest [])
    ∧ ((pySplit ',' first_line).length ≠ 13 → (pySplit '\t' first_line).length = 13 →
      parse_upload_manifest lines = parse_manifest_rows '\t' (pySplit '\t' first_line) rest [])
    ∧ (parse_upload_manifest lines =
        Except.error (Err.typeError "Unable to recognize metadata format")
      ↔ (pySplit ',' first_line).length ≠ 13 ∧ (pySplit '\t' first_line).length ≠ 13) := by
  subst hcons
  rw [parse_upload_manifest_cons_of_le first_line rest hlen]
  refine ⟨fun hc => by rw [if_pos hc], fun hc ht => by rw [if_neg hc, if_pos ht], ?_⟩
  constructor
  · intro herr
    by_cases hc : (pySplit ',' first_line).length = 13
    · rw [if_pos hc] at herr
      exact absurd herr (parse_manifest_rows_ne_typeError ',' _ rest [] _)
    · by_cases ht : (pySplit '\t' first_line).length = 13
      · rw [if_neg hc, if_pos ht] at herr
        exact absurd herr (parse_manifest_rows_ne_typeError '\t' _ rest [] _)
      · exact ⟨hc, ht⟩
  · intro ⟨hc, ht⟩
    rw [if_neg hc, if_neg ht]

/-- C5 witness: on a two-line manifest whose header has 13 comma fields, the
parser proceeds with the comma delimiter. -/
theorem parse_upload_manifest_delimiter_detection_witness :
    parse_upload_manifest [wHeader, wRowS1] =
      parse_manifest_rows ',' (pySplit ',' wHeader) [wRowS1] [] :=
  (parse_upload_manifest_delimiter_detection [wHeader, wRowS1] wHeader [wRowS1]
    rfl (by decide)).1 (by decide)

/-! ## Claim C9 -/

set_option maxRecDepth 100000 in
/-- C9 counterexample: a 501-line manifest whose 500th data line (1-based,
counting after the header; every earlier data line is well-formed) has the
wrong field count, yet the error names line 499, because the deque window
dropped the real header and renumbered every line. -/
theorem parse_upload_manifest_line_number_shifted :
    parse_upload_manifest
        ("a,,,,,,,,,,,," :: (List.replicate 499 "a,,,,,,,,,,,," ++ ["x"])) =
      Except.error (Err.indexError "Line 499 has the wrong number of columns")
    ∧ ("Line 499 has the wrong number of columns" ==
        "Line 500 has the wrong number of columns") = false := by
  exact ⟨by decide, by decide⟩

/-- C9 (amended): for a manifest of at most 500 lines — comma- or
tab-delimited, `sep` being whichever delimiter the detection selects on the
first line — whose first ill-formed data line under that delimiter is the
`(j+1)`-th (1-based), the parse fails with the `IndexError` naming position
`j+1`, and no record list is returned. -/
theorem parse_upload_manifest_bad_line_position (lines : List String)
    (first_line : String) (rest : List String) (sep : Char) (j : Nat)
    (hcons : lines = first_line :: rest) (hlen : lines.length ≤ 500)
    (hsep : (sep = ',' ∧ (pySplit ',' first_line).length = 13) ∨
      (sep = '\t' ∧ (pySplit ',' first_line).length ≠ 13 ∧
        (pySplit '\t' first_line).length = 13))
    (hj : j < rest.length)
    (hgood : (rest.take j).all
      (fun line => (pySplit sep (pyStrip line)).length == 13) = true)
    (hbad : (pySplit sep (pyStrip (rest.getD j ""))).length ≠ 13) :
    parse_upload_manifest lines =
      Except.error (Err.indexError
        ("Line " ++ toString (j + 1) ++ " has the wrong number of columns")) := by
  subst hcons
  rcases hsep with ⟨hsep, hc⟩ | ⟨hsep, hc, ht⟩
  · subst hsep
    rw [parse_upload_manifest_cons_of_le first_line rest hlen, if_pos hc]
    rw [parse_manifest_rows_first_bad_line ',' (pySplit ',' first_line) rest [] j hj
      (by rw [hc]; exact hgood) (by rw [hc]; exact hbad)]
    simp
  · subst hsep
    rw [parse_upload_manifest_cons_of_le first_line rest hlen, if_neg hc, if_pos ht]
    rw [parse_manifest_rows_first_bad_line '\t' (pySplit '\t' first_line) rest [] j hj
      (by rw [ht]; exact hgood) (by rw [ht]; exact hbad)]
    simp

/-- C9 witness: a comma-delimited and a tab-delimited three-line manifest,
each with an ill-formed second data line, both fail naming line 2.  (The
tab-delimited data row must carry non-empty fields: the code strips each data
line before splitting, which would eat trailing tab separators.) -/
theorem parse_upload_manifest_bad_line_position_witness :
    parse_upload_manifest [wHeader, wRowS1, "x"] =
      Except.error (Err.indexError "Line 2 has the wrong number of columns")
    ∧ parse_upload_manifest
        ["a\t\t\t\t\t\t\t\t\t\t\t\t",
         "b\tb\tb\tb\tb\tb\tb\tb\tb\tb\tb\tb\tb", "x"] =
      Except.error (Err.indexError "Line 2 has the wrong number of columns") := by
  constructor
  · exact parse_upload_manifest_bad_line_position [wHeader, wRowS1, "x"] wHeader
      [wRowS1, "x"] ',' 1 rfl (by decide) (Or.inl ⟨rfl, by decide⟩)
      (by decide) (by decide) (by decide)
  · exact parse_upload_manifest_bad_line_position
      ["a\t\t\t\t\t\t\t\t\t\t\t\t",
       "b\tb\tb\tb\tb\tb\tb\tb\tb\tb\tb\tb\tb", "x"]
      "a\t\t\t\t\t\t\t\t\t\t\t\t"
      ["b\tb\tb\tb\tb\tb\tb\tb\tb\tb\tb\tb\tb", "x"]
      '\t' 1 rfl (by decide) (Or.inr ⟨rfl, by decide, by decide⟩)
      (by decide) (by decide) (by decide)

/-! ## Claim C1 -/

set_option maxRecDepth 100000 in
/-- C1 evidence: on a 501-line manifest (a 13-field header `H,...` followed by
500 well-formed 13-field data rows `v,...`), the parser returns 499 records —
not 500 — and every record's key list is the trimmed field list of the FIRST
DATA ROW (`["v", ""]`), not of the header, whose trimmed field list is
`"H" :: List.replicate 12 ""`: the deque retains the last 500 lines and pops a
data row as header. -/
theorem parse_upload_manifest_window_loses_rows :
    (parse_upload_manifest ("H,,,,,,,,,,,," :: List.replicate 500 "v,,,,,,,,,,,,")).map
        (fun rs => (rs.length, rs.map dictKeys)) =
      Except.ok (499, List.replicate 499 ["v", ""])
    ∧ (pySplit ',' "H,,,,,,,,,,,,").map pyStrip = "H" :: List.replicate 12 "" := by
  exact ⟨by decide, by decide⟩

/-! ## Claim C6 -/

/-- C6: `guess_file_ext` first looks up the final dot-segment of the file
name; on a miss it looks up the last two dot-segments joined by a dot,
returning the unrecognized marker (`none`) on a second miss; in particular
`sample.fq.gz` and `sample.fa` resolve to FASTQ and `sample.bam` is
unresolved. -/
theorem guess_file_ext_lookup_order :
    guess_file_ext "sample.fq.gz" = Except.ok (some "FASTQ")
    ∧ guess_file_ext "sample.fa" = Except.ok (some "FASTQ")
    ∧ guess_file_ext "sample.bam" = Except.ok none
    ∧ (∀ file_name file_type,
        dictGet FILE_EXTENSION_DICT ((pySplit '.' file_name).getLastD "") = some file_type →
        guess_file_ext file_name = Except.ok (some file_type))
    ∧ (∀ (file_name second_last last : String) (parts : List String),
        pySplit '.' file_name = parts ++ [second_last, last] →
        dictGet FILE_EXTENSION_DICT last = none →
        guess_file_ext file_name =
          Except.ok (dictGet FILE_EXTENSION_DICT (second_last ++ "." ++ last))) := by
  refine ⟨by decide, by decide, by decide, ?_, ?_⟩
  · intro file_name file_type hhit
    simp only [guess_file_ext, hhit]
  · intro file_name second_last last parts hsplit hmiss
    have h1 : (parts ++ [second_last, last]).getLastD "" = last := by
      rw [show parts ++ [second_last, last] = (parts ++ [second_last]) ++ [last] by simp]
      exact List.getLastD_concat _ _ _
    have h2 : (parts ++ [second_last, last]).drop ((parts ++ [second_last, last]).length - 2) =
        [second_last, last] := by
      have hl : (parts ++ [second_last, last]).length - 2 = parts.length := by
        simp [List.length_append]
      rw [hl, List.drop_left]
    simp only [guess_file_ext, hsplit, h1, hmiss, h2]

/-- C6 witness: the first-segment hit and the two-segment fallback clauses at
concrete file names. -/
theorem guess_file_ext_lookup_order_witness :
    guess_file_ext "x.fa" = Except.ok (some "FASTQ")
    ∧ guess_file_ext "x.fq.gz" = Except.ok (some "FASTQ") :=
  ⟨guess_file_ext_lookup_order.2.2.2.1 "x.fa" "FASTQ" (by decide),
   by
    rw [guess_file_ext_lookup_order.2.2.2.2 "x.fq.gz" "fq" "gz" ["x"]
      (by decide) (by decide)]
    decide⟩

/-! ## Claim C10 -/

/-- C10: a file name without a dot (its split is the singleton holding the
name itself) that is not a key of the extension dictionary makes
`guess_file_ext` raise an uncaught `IndexError` — the fallback indexes
`split_name[-2]` of a one-element list and only `KeyError` is caught — while
every file name containing at least one dot (split length at least two) always
returns without raising. -/
theorem guess_file_ext_dotless_raises :
    (∀ file_name : String, pySplit '.' file_name = [file_name] →
      dictGet FILE_EXTENSION_DICT file_name = none →
      guess_file_ext file_name = Except.error (Err.indexError "list index out of range"))
    ∧ (∀ file_name : String, 2 ≤ (pySplit '.' file_name).length →
      (guess_file_ext file_name).isOk = true) := by
  constructor
  · intro file_name hsplit hmiss
    simp only [guess_file_ext, hsplit]
    simp [hmiss]
  · intro file_name hlen
    cases hlook : dictGet FILE_EXTENSION_DICT ((pySplit '.' file_name).getLastD "") with
    | some t =>
      simp only [guess_file_ext]
      rw [hlook]
      rfl
    | none =>
      have hlen2 : ((pySplit '.' file_name).drop
          ((pySplit '.' file_name).length - 2)).length = 2 := by
        rw [List.length_drop]; omega
      obtain ⟨a, b, hab⟩ := List.length_eq_two.mp hlen2
      simp only [guess_file_ext]
      rw [hlook, hab]
      rfl

/-- C10 witness: `README` (dotless, unknown) raises the `IndexError`; `a.b`
(one dot) returns without raising. -/
theorem guess_file_ext_dotless_raises_witness :
    guess_file_ext "README" = Except.error (Err.indexError "list index out of range")
    ∧ (guess_file_ext "a.b").isOk = true :=
  ⟨guess_file_ext_dotless_raises.1 "README" (by decide) (by decide),
   guess_file_ext_dotless_raises.2 "a.b" (by decide)⟩

/-! ## Claim C7 -/

/-- C7: `upload_files` returns the batch identifier exactly when the external
copy command succeeds; on success it patches the status to Completed with an
end-timestamp and returns the id, and on copy failure it patches the status to
Aborted carrying the transfer error as message and returns no identifier. -/
theorem upload_files_success_iff (transfer : List String → Except String Unit)
    (now directory : String) (request_info : RequestInfo) :
    ((upload_files transfer now directory request_info).1.isSome = true ↔
      (transfer (upload_gsutil_args directory request_info)).isOk = true)
    ∧ (transfer (upload_gsutil_args directory request_info) = Except.ok () →
      upload_files transfer now directory request_info =
        (some request_info.mongo_id,
          [{ item_id := request_info.mongo_id
             etag := request_info.mongo_etag
             payload := { progress := "Completed", message := some "",
                          end_time := some now } }]))
    ∧ (∀ err, transfer (upload_gsutil_args directory request_info) = Except.error err →
      upload_files transfer now directory request_info =
        (none,
          [{ item_id := request_info.mongo_id
             etag := request_info.mongo_etag
             payload := { progress := "Aborted", message := some err,
                          end_time := none } }])) := by
  cases h : transfer (upload_gsutil_args directory request_info) with
  | ok u =>
    cases u
    refine ⟨by simp [upload_files, h, Except.isOk, Except.toBool], ?_, ?_⟩
    · intro _
      simp [upload_files, h, update_job_status]
    · intro err herr
      cases herr
  | error e =>
    refine ⟨by simp [upload_files, h, Except.isOk, Except.toBool], ?_, ?_⟩
    · intro hok
      cases hok
    · intro err herr
      cases herr
      simp [upload_files, h, update_job_status]

/-- C7 witness: a succeeding and a failing transfer, at concrete request
info. -/
theorem upload_files_success_iff_witness :
    upload_files (fun _ => Except.ok ()) "NOW" "dir" ⟨"id1", "etag1", "tok", "gp", ["f1"]⟩ =
      (some "id1",
        [{ item_id := "id1", etag := "etag1",
           payload := { progress := "Completed", message := some "",
                        end_time := some "NOW" } }])
    ∧ upload_files (fun _ => Except.error "boom") "NOW" "dir"
        ⟨"id1", "etag1", "tok", "gp", ["f1"]⟩ =
      (none,
        [{ item_id := "id1", etag := "etag1",
           payload := { progress := "Aborted", message := some "boom",
                        end_time := none } }]) :=
  ⟨(upload_files_success_iff (fun _ => Except.ok ()) "NOW" "dir"
      ⟨"id1", "etag1", "tok", "gp", ["f1"]⟩).2.1 rfl,
   (upload_files_success_iff (fun _ => Except.error "boom") "NOW" "dir"
      ⟨"id1", "etag1", "tok", "gp", ["f1"]⟩).2.2 "boom" rfl⟩

/-! ## Claim C8 -/

/-- Under a backend that always answers 200/In Progress, the polling loop
spends all its fuel, incrementing the counter and printing the in-progress
line each iteration, and exits with the done flag still false. -/
theorem polling_loop_aux_all_in_progress (poll : Nat → PollResp)
    (hpoll : ∀ n, poll n = ⟨200, "In Progress", ""⟩) :
    ∀ (fuel counter : Nat) (log : List String), counter + fuel = 200 →
    polling_loop_aux poll fuel false counter log =
      PollOutcome.finished false 200
        (log ++ List.replicate fuel "Upload is still in PROGRESS, check back later")
  | 0, counter, log, hcf => by
    have hc : counter = 200 := by omega
    subst hc
    simp [polling_loop_aux]
  | fuel + 1, counter, log, hcf => by
    have hc : counter < 200 := by omega
    simp only [polling_loop_aux]
    rw [if_pos (show True ∧ counter < 200 from ⟨trivial, hc⟩), hpoll counter]
    simp only [ne_eq, not_true_eq_false, if_false, reduceIte]
    rw [polling_loop_aux_all_in_progress poll hpoll fuel (counter + 1)
      (log ++ ["Upload is still in PROGRESS, check back later"]) (by omega)]
    simp [List.replicate_succ]

/-- C8: under backend silence (every poll answers 200 with In Progress), the
`e2e.py` job polling loop terminates at its iteration bound of 200 polls with
the done flag still false — but the program then prints the same post-loop
line `Job uploaded` as in the success case, reporting no distinct timeout
outcome. -/
theorem e2e_polling_loop_timeout (poll : Nat → PollResp)
    (hpoll : ∀ n, poll n = ⟨200, "In Progress", ""⟩) :
    e2e_job_poll poll =
      PollOutcome.finished false 200
        (List.replicate 200 "Upload is still in PROGRESS, check back later" ++
          ["Job uploaded"]) := by
  unfold e2e_job_poll e2e_polling_loop
  rw [polling_loop_aux_all_in_progress poll hpoll 200 0 [] rfl]
  simp only [List.nil_append]

/-- C8 witness: the all-In-Progress backend, concretely. -/
theorem e2e_polling_loop_timeout_witness :
    e2e_job_poll (fun _ => ⟨200, "In Progress", ""⟩) =
      PollOutcome.finished false 200
        (List.replicate 200 "Upload is still in PROGRESS, check back later" ++
          ["Job uploaded"]) :=
  e2e_polling_loop_timeout (fun _ => ⟨200, "In Progress", ""⟩) (fun _ => rfl)

/-! ## Claim C4 -/

/-- Any entry built by the per-key loop body records the key as its `mapping`
and carries the pairing labels computed from that key: `NORMAL` exactly for
the two normal columns, `PAIR 2` exactly for the two second-read columns. -/
theorem create_manifest_entry_fields (fs : String → Option Nat) (entry : Record)
    (selections : Selections) (directory : String) (key : String) (fe : FileEntry)
    (h : create_manifest_entry fs entry selections directory key = Except.ok fe) :
    fe.mapping = key
    ∧ fe.fastq_properties.sample_type =
        (if key = "FASTQ_NORMAL_1" ∨ key = "FASTQ_NORMAL_2" then "NORMAL" else "TUMOR")
    ∧ fe.fastq_properties.pair_label =
        (if key = "FASTQ_NORMAL_2" ∨ key = "FASTQ_TUMOR_2" then "PAIR 2" else "PAIR 1") := by
  unfold create_manifest_entry at h
  split at h
  · cases h
  · dsimp only at h
    split at h
    · cases h
    · split at h
      case _ sample_id patient_id timepoint timepoint_unit batch_id instrument_model
          read_length avg_insert_size _ _ _ _ _ _ _ _ =>
        have hfe := Except.ok.inj h
        subst hfe
        refine ⟨rfl, ?_, ?_⟩ <;> simp [List.mem_cons]
      all_goals cases h

/-- Every entry of the loop's result is either an entry of the incoming
accumulator or an entry built by the loop body for some key. -/
theorem create_manifest_payload_loop_mem (fs : String → Option Nat) (entry : Record)
    (non_static_inputs : List String) (selections : Selections) (directory : String) :
    ∀ (keys : List String) (payload : List FileEntry) (file_names : List String)
      (pf : List FileEntry × List String),
    create_manifest_payload_loop fs entry non_static_inputs selections directory
      keys payload file_names = Except.ok pf →
    ∀ e ∈ pf.1, e ∈ payload ∨
      ∃ k, create_manifest_entry fs entry selections directory k = Except.ok e
  | [], payload, file_names, pf, h, e, he => by
    simp only [create_manifest_payload_loop] at h
    cases h
    exact Or.inl he
  | key :: rest, payload, file_names, pf, h, e, he => by
    simp only [create_manifest_payload_loop] at h
    split at h
    · cases hcr : create_manifest_entry fs entry selections directory key with
      | error err => rw [hcr] at h; cases h
      | ok fe =>
        rw [hcr] at h
        rcases create_manifest_payload_loop_mem fs entry non_static_inputs selections
          directory rest (payload ++ [fe]) (file_names ++ [fe.file_name]) pf h e he with
          hacc | hbuilt
        · rcases List.mem_append.mp hacc with hp | hf
          · exact Or.inl hp
          · rw [List.mem_singleton] at hf
            subst hf
            exact Or.inr ⟨key, hcr⟩
        · exact Or.inr hbuilt
    · exact create_manifest_payload_loop_mem fs entry non_static_inputs selections
        directory rest payload file_names pf h e he

/-- C4: every file-submission entry built by `create_manifest_payload` has
tumor/normal label TUMOR and pair label `PAIR 1` by default; the label is
NORMAL exactly when its column key (`mapping`) is `FASTQ_NORMAL_1` or
`FASTQ_NORMAL_2`, and the pair label is `PAIR 2` exactly when the key is
`FASTQ_NORMAL_2` or `FASTQ_TUMOR_2` — two independent flips, so
`FASTQ_NORMAL_2` gets both NORMAL and `PAIR 2`. -/
theorem create_manifest_payload_pairing (fs : String → Option Nat) (entry : Record)
    (non_static_inputs : List String) (selections : Selections) (directory : String)
    (pf : List FileEntry × List String)
    (h : create_manifest_payload fs entry non_static_inputs selections directory =
      Except.ok pf)
    (e : FileEntry) (he : e ∈ pf.1) :
    e.fastq_properties.sample_type =
      (if e.mapping = "FASTQ_NORMAL_1" ∨ e.mapping = "FASTQ_NORMAL_2"
        then "NORMAL" else "TUMOR")
    ∧ e.fastq_properties.pair_label =
      (if e.mapping = "FASTQ_NORMAL_2" ∨ e.mapping = "FASTQ_TUMOR_2"
        then "PAIR 2" else "PAIR 1") := by
  unfold create_manifest_payload at h
  rcases create_manifest_payload_loop_mem fs entry non_static_inputs selections directory
    (dictKeys entry) [] [] pf h e he with hacc | ⟨k, hk⟩
  · cases hacc
  · obtain ⟨hmap, hst, hpl⟩ := create_manifest_entry_fields fs entry selections directory
      k e hk
    rw [hmap]
    exact ⟨hst, hpl⟩

/-- C4 witness: on the concrete record `wRecordS1`, the `FASTQ_NORMAL_2` entry
(index 3 of the built payload) satisfies the pairing rule, and concretely it
carries both NORMAL and `PAIR 2`. -/
theorem create_manifest_payload_pairing_witness :
    (wPayload.getD 3 default).fastq_properties.sample_type =
      (if (wPayload.getD 3 default).mapping = "FASTQ_NORMAL_1" ∨
          (wPayload.getD 3 default).mapping = "FASTQ_NORMAL_2"
        then "NORMAL" else "TUMOR")
    ∧ (wPayload.getD 3 default).fastq_properties.pair_label =
      (if (wPayload.getD 3 default).mapping = "FASTQ_NORMAL_2" ∨
          (wPayload.getD 3 default).mapping = "FASTQ_TUMOR_2"
        then "PAIR 2" else "PAIR 1")
    ∧ (wPayload.getD 3 default).fastq_properties.sample_type = "NORMAL"
    ∧ (wPayload.getD 3 default).fastq_properties.pair_label = "PAIR 2" := by
  refine ⟨?_, ?_, by decide, by decide⟩
  · exact (create_manifest_payload_pairing (fun _ => some 7) wRecordS1 wInputs wSelections
      "d" (wPayload, wNames) (by decide) (wPayload.getD 3 default) (by decide)).1
  · exact (create_manifest_payload_pairing (fun _ => some 7) wRecordS1 wInputs wSelections
      "d" (wPayload, wNames) (by decide) (wPayload.getD 3 default) (by decide)).2

/-! ## Claims C2 and C3: the record loop of upload_manifest -/

/-- Behaviour of the record loop when every record has a sample id and every
payload construction succeeds: the loop returns normally; its bad flag is the
incoming flag or-ed with the presence of an unrecognized sample id; the
accumulated payload is preserved; and — when the flag stays clear because all
ids are recognized — every entry built for any record ends up in the final
payload. -/
theorem upload_manifest_loop_spec (fs : String → Option Nat)
    (non_static_inputs : List String) (selections : Selections) (file_dir : String)
    (samples : List String) :
    ∀ (records : List Record) (file_names : List String) (payload : List FileEntry)
      (b : Bool),
    records.all (fun r => (dictGet r "#CIMAC_SAMPLE_ID").isSome) = true →
    records.all (fun r =>
      (create_manifest_payload fs r non_static_inputs selections file_dir).isOk) = true →
    ∃ fn pl bad,
      upload_manifest_loop fs non_static_inputs selections file_dir samples
        records file_names payload b = Except.ok (fn, pl, bad)
      ∧ bad = (b || records.any (sid_unrecognized samples))
      ∧ (∀ e ∈ payload, e ∈ pl)
      ∧ (b = false → records.all (sid_recognized samples) = true →
          ∀ r ∈ records, ∀ pr fr,
            create_manifest_payload fs r non_static_inputs selections file_dir =
              Except.ok (pr, fr) →
            ∀ e ∈ pr, e ∈ pl) := by
  intro records
  induction records with
  | nil =>
    intro file_names payload b _ _
    refine ⟨file_names, payload, b, rfl, by simp, fun e he => he, ?_⟩
    intro _ _ r hr
    cases hr
  | cons r rs ih =>
    intro file_names payload b hkeys hcreate
    rw [List.all_cons, Bool.and_eq_true] at hkeys hcreate
    obtain ⟨sid, hsid⟩ := Option.isSome_iff_exists.mp hkeys.1
    have hpy : pyGet r "#CIMAC_SAMPLE_ID" = Except.ok sid := by simp [pyGet, hsid]
    by_cases hchk : check_id_present sid samples = true
    · have hunrec : sid_unrecognized samples r = false := by
        simp [sid_unrecognized, hsid, hchk]
      cases b with
      | false =>
        cases hcr : create_manifest_payload fs r non_static_inputs selections file_dir with
        | error err => rw [hcr] at hcreate; simp [Except.isOk, Except.toBool] at hcreate
        | ok pf0 =>
          obtain ⟨pr, fr⟩ := pf0
          obtain ⟨fn', pl', bad', heq, hbad', hmono', hbuild'⟩ :=
            ih (file_names ++ fr) (payload ++ pr) false hkeys.2 hcreate.2
          refine ⟨fn', pl', bad', ?_, ?_, ?_, ?_⟩
          · simp only [upload_manifest_loop, hpy, hchk, hcr]
            simp only [Bool.true_eq_false, if_false, if_pos rfl]
            exact heq
          · rw [hbad', List.any_cons, hunrec]
            simp
          · intro e he
            exact hmono' e (List.mem_append_left pr he)
          · intro _ hrecall r' hr' pr' fr' hcr' e' he'
            rcases List.mem_cons.mp hr' with hEq | hmem
            · subst hEq
              rw [hcr] at hcr'
              have hpf := Except.ok.inj hcr'
              have hpr : pr = pr' := congrArg Prod.fst hpf
              subst hpr
              exact hmono' e' (List.mem_append_right payload he')
            · rw [List.all_cons, Bool.and_eq_true] at hrecall
              exact hbuild' rfl hrecall.2 r' hmem pr' fr' hcr' e' he'
      | true =>
        obtain ⟨fn', pl', bad', heq, hbad', hmono', _⟩ :=
          ih file_names payload true hkeys.2 hcreate.2
        refine ⟨fn', pl', bad', ?_, ?_, hmono', ?_⟩
        · simp only [upload_manifest_loop, hpy, hchk]
          simp only [Bool.true_eq_false, if_false]
          exact heq
        · rw [hbad']
          simp
        · intro hb0
          cases hb0
    · rw [Bool.not_eq_true] at hchk
      have hunrec : sid_unrecognized samples r = true := by
        simp [sid_unrecognized, hsid, hchk]
      obtain ⟨fn', pl', bad', heq, hbad', hmono', _⟩ :=
        ih file_names payload true hkeys.2 hcreate.2
      refine ⟨fn', pl', bad', ?_, ?_, hmono', ?_⟩
      · simp only [upload_manifest_loop, hpy, hchk]
        exact heq
      · rw [hbad', List.any_cons, hunrec]
        simp
      · intro _ hrecall
        rw [List.all_cons, Bool.and_eq_true] at hrecall
        have := hrecall.1
        simp [sid_recognized, hsid, hchk] at this

/-- C3: a manifest containing a record whose `#CIMAC_SAMPLE_ID` is not among
the trial's sample ids (and otherwise valid records: every record carries a
sample id and payload construction succeeds on each) makes `upload_manifest`
fail with the single batch-level sample-id `RuntimeError`, and no payload
reaches the `POST /ingestion` call. -/
theorem upload_manifest_sample_id_atomic (fs : String → Option Nat)
    (non_static_inputs : List String) (selections : Selections)
    (manifest_lines : List String) (file_dir : String) (records : List Record)
    (hparse : parse_upload_manifest manifest_lines = Except.ok records)
    (hkeys : records.all (fun r => (dictGet r "#CIMAC_SAMPLE_ID").isSome) = true)
    (hcreate : records.all (fun r =>
      (create_manifest_payload fs r non_static_inputs selections file_dir).isOk) = true)
    (hbadany : records.any (sid_unrecognized selections.selected_trial.samples) = true) :
    upload_manifest fs non_static_inputs selections manifest_lines file_dir =
      Except.error (Err.runtimeError
        "One or more SampleIDs were not recognized as valid IDs for this trial")
    ∧ run_upload_post
        (upload_manifest fs non_static_inputs selections manifest_lines file_dir) =
      none := by
  obtain ⟨fn, pl, bad, heq, hbad, _, _⟩ :=
    upload_manifest_loop_spec fs non_static_inputs selections file_dir
      selections.selected_trial.samples records [] [] false hkeys hcreate
  have hbadt : bad = true := by rw [hbad, hbadany]; rfl
  have herr : upload_manifest fs non_static_inputs selections manifest_lines file_dir =
      Except.error (Err.runtimeError
        "One or more SampleIDs were not recognized as valid IDs for this trial") := by
    unfold upload_manifest
    simp only [hparse, heq, hbadt, eq_self_iff_true, if_true]
  exact ⟨herr, by rw [herr]; rfl⟩

/-- C3 witness: a one-row manifest whose sample id `S2` is unknown to trial
`T1` (which only knows `S1`). -/
theorem upload_manifest_sample_id_atomic_witness :
    upload_manifest (fun _ => some 7) wInputs wSelections [wHeader, wRowS2] "d" =
      Except.error (Err.runtimeError
        "One or more SampleIDs were not recognized as valid IDs for this trial")
    ∧ run_upload_post
        (upload_manifest (fun _ => some 7) wInputs wSelections [wHeader, wRowS2] "d") =
      none :=
  upload_manifest_sample_id_atomic (fun _ => some 7) wInputs wSelections
    [wHeader, wRowS2] "d" [wRecordS2] (by decide) (by decide) (by decide) (by decide)

/-- C2: a batch whose construction left some file-submission entry with a null
file size is never returned by `upload_manifest` — whenever `upload_manifest`
returns a payload every entry has a resolved size, so the `POST /ingestion` of
`run_upload_process` is never attempted on a partial batch — and under
sample-id-valid records with a null-size entry the failure is precisely the
batch-level `FileNotFoundError`, with no payload handed to the post. -/
theorem upload_manifest_null_size_never_posted (fs : String → Option Nat)
    (non_static_inputs : List String) (selections : Selections)
    (manifest_lines : List String) (file_dir : String) :
    (∀ out, upload_manifest fs non_static_inputs selections manifest_lines file_dir =
        Except.ok out →
      ∀ e ∈ out.2.1.files, e.file_size ≠ none)
    ∧ (∀ records : List Record,
        parse_upload_manifest manifest_lines = Except.ok records →
        records.all (sid_recognized selections.selected_trial.samples) = true →
        records.all (fun r =>
          (create_manifest_payload fs r non_static_inputs selections file_dir).isOk) =
          true →
        records.any (fun r =>
          match create_manifest_payload fs r non_static_inputs selections file_dir with
          | Except.ok pf => pf.1.any (fun e => e.file_size.isNone)
          | Except.error _ => false) = true →
        upload_manifest fs non_static_inputs selections manifest_lines file_dir =
          Except.error (Err.fileNotFound "One or more files could not be found")
        ∧ run_upload_post
            (upload_manifest fs non_static_inputs selections manifest_lines file_dir) =
          none) := by
  constructor
  · intro out hout
    unfold upload_manifest at hout
    dsimp only at hout
    split at hout
    · cases hout
    · split at hout
      · cases hout
      · split at hout
        · cases hout
        · split at hout
          · cases hout
          · next fn pl bad hbad hany =>
            have h := Except.ok.inj hout
            subst h
            intro e he hnone
            exact hany (List.any_eq_true.mpr ⟨e, he, by rw [hnone]; rfl⟩)
  · intro records hparse hrecog hcreate hnull
    have hkeys : records.all (fun r => (dictGet r "#CIMAC_SAMPLE_ID").isSome) = true := by
      rw [List.all_eq_true] at hrecog ⊢
      intro r hr
      have hrec := hrecog r hr
      unfold sid_recognized at hrec
      cases hd : dictGet r "#CIMAC_SAMPLE_ID" with
      | none => rw [hd] at hrec; simp at hrec
      | some sid => simp [hd]
    obtain ⟨fn, pl, bad, heq, hbad, hmono, hbuild⟩ :=
      upload_manifest_loop_spec fs non_static_inputs selections file_dir
        selections.selected_trial.samples records [] [] false hkeys hcreate
    have hbadf : bad = false := by
      rw [hbad, any_sid_unrecognized_eq_false selections.selected_trial.samples records
        hrecog]
      rfl
    rw [List.any_eq_true] at hnull
    obtain ⟨r, hr, hrnull⟩ := hnull
    cases hcr : create_manifest_payload fs r non_static_inputs selections file_dir with
    | error err => rw [hcr] at hrnull; simp at hrnull
    | ok pf0 =>
      obtain ⟨pr, fr⟩ := pf0
      rw [hcr] at hrnull
      simp only at hrnull
      rw [List.any_eq_true] at hrnull
      obtain ⟨e, he, henone⟩ := hrnull
      have hepl : e ∈ pl := hbuild rfl hrecog r hr pr fr hcr e he
      have hplany : pl.any (fun elem => elem.file_size.isNone) = true :=
        List.any_eq_true.mpr ⟨e, hepl, henone⟩
      have herr : upload_manifest fs non_static_inputs selections manifest_lines
          file_dir =
          Except.error (Err.fileNotFound "One or more files could not be found") := by
        unfold upload_manifest
        simp only [hparse, heq, hbadf, hplany, Bool.false_eq_true, if_false,
          eq_self_iff_true, if_true]
      exact ⟨herr, by rw [herr]; rfl⟩

/-- C2 witness: a one-row manifest with valid sample id whose referenced files
are all missing (`fs` resolves no path), so every entry's size is null: the
batch fails with `FileNotFoundError` and nothing is posted. -/
theorem upload_manifest_null_size_never_posted_witness :
    upload_manifest (fun _ => none) wInputs wSelections [wHeader, wRowS1] "d" =
      Except.error (Err.fileNotFound "One or more files could not be found")
    ∧ run_upload_post
        (upload_manifest (fun _ => none) wInputs wSelections [wHeader, wRowS1] "d") =
      none :=
  (upload_manifest_null_size_never_posted (fun _ => none) wInputs wSelections
    [wHeader, wRowS1] "d").2 [wRecordS1] (by decide) (by decide) (by decide) (by decide)

end Cidc
